import Mathlib

/-!
Verification development for the upload orchestration pipeline
(`src/unnamed/part_000` of asleepynerd/cdn).

The JavaScript source is shallowly embedded as pure Lean functions.
External I/O (HTTP fetch, object storage, Slack client calls) is modelled
by an environment that fixes each call's outcome, and every call attempt
is recorded in an explicit effect trace.  Asynchronous `try`/`catch`
control flow is modelled by a writer-plus-exception monad `Eff`:
effects performed before an exception are kept in the trace, as they are
in the real program.
-/

set_option maxRecDepth 4096

namespace Cdn

/-! ## Constants (source lines 7-8) -/

def MAX_FILE_SIZE : Nat := 2 * 1024 * 1024 * 1024

def CONCURRENT_UPLOADS : Nat := 3

/-! ## Data model -/

/-- A Slack file reference as read by `processFiles`:
`file.name`, `file.url_private`, `file.size`, `file.mimetype`. -/
structure FileRef where
  name : String
  url_private : String
  size : Nat
  mimetype : String
deriving DecidableEq, Repr

/-- The resolved original message (`fileMessage`): its `ts` is the stable
identity key, `user` the uploader, `files` the attached file list. -/
structure FileMessage where
  ts : String
  user : String
  files : List FileRef
deriving DecidableEq, Repr

/-- A success record pushed onto `uploadedFiles` (source lines 72-76). -/
structure UploadedFile where
  name : String
  url : String
  contentType : String
deriving DecidableEq, Repr

/-- The pair returned by `processFiles` (source line 85). -/
structure BatchResult where
  uploadedFiles : List UploadedFile
  failedFiles : List String
deriving DecidableEq, Repr

/-- The inbound Slack event.  `event_ts` holds the result of JavaScript
`parseFloat` applied to the raw `event.event_ts` string: `some q` when the
string parses to the number `q`, `none` when `parseFloat` yields `NaN`. -/
structure InboundEvent where
  file_id : String
  channel_id : String
  event_ts : Option ℚ
deriving DecidableEq, Repr

/-! ## Effect traces and the exception monad -/

/-- One observable external call attempt. -/
inductive Effect where
  | filesInfo (fileId : String)
  | convHistory (channel : String)
  | fetch (url : String)
  | upload (dir storedName : String)
  | reactionAdd (rname ts channel : String)
  | reactionRemove (rname ts channel : String)
  | postMessage (channel text : String)
deriving DecidableEq, Repr

/-- A thrown JavaScript error.  `dataError` is the value of
`error.data.error` when the platform attached one (Slack API errors carry
this field), `none` otherwise. -/
structure JsError where
  dataError : Option String
deriving DecidableEq, Repr

/-- Writer-plus-exception monad: a computation yields the list of effects
it attempted (kept even when it throws) and either a value or an error. -/
def Eff (α : Type) : Type := List Effect × Except JsError α

def pureE {α : Type} (a : α) : Eff α := ([], Except.ok a)

def throwE {α : Type} (e : JsError) : Eff α := ([], Except.error e)

def bindE {α β : Type} (m : Eff α) (f : α → Eff β) : Eff β :=
  match m with
  | (eff, Except.error e) => (eff, Except.error e)
  | (eff, Except.ok a) =>
      match f a with
      | (eff2, r) => (eff ++ eff2, r)

/-- `try m catch h`: effects of the failed attempt are kept, the handler's
effects follow them. -/
def tryCatchE {α : Type} (m : Eff α) (h : JsError → Eff α) : Eff α :=
  match m with
  | (eff, Except.ok a) => (eff, Except.ok a)
  | (eff, Except.error e) =>
      match h e with
      | (eff2, r) => (eff ++ eff2, r)

/-! ## Admission ledger and staleness (source lines 19-30) -/

/-- NaN-aware multiplication on JavaScript numbers (`none` = `NaN`). -/
def jsMul (a b : Option ℚ) : Option ℚ :=
  match a, b with
  | some x, some y => some (x * y)
  | _, _ => none

/-- NaN-aware subtraction on JavaScript numbers. -/
def jsSub (a b : Option ℚ) : Option ℚ :=
  match a, b with
  | some x, some y => some (x - y)
  | _, _ => none

/-- NaN-aware `>`: any comparison with `NaN` is `false`. -/
def jsGt (a b : Option ℚ) : Bool :=
  match a, b with
  | some x, some y => decide (x > y)
  | _, _ => false

/-- Source lines 19-22: `(Date.now() - parseFloat(eventTs) * 1000) > 24*60*60*1000`.
`now` is `Date.now()` in milliseconds; `eventTs` is the `parseFloat` result. -/
def isMessageTooOld (now : ℚ) (eventTs : Option ℚ) : Bool :=
  jsGt (jsSub (some now) (jsMul eventTs (some 1000))) (some (24 * 60 * 60 * 1000))

/-- Source lines 24-26: membership in the process-wide `processedMessages` map,
modelled as the list of keys. -/
def isMessageProcessed (processed : List String) (messageTs : String) : Bool :=
  processed.contains messageTs

/-- Source lines 28-30: insert the key. -/
def markMessageAsProcessing (processed : List String) (messageTs : String) : List String :=
  messageTs :: processed

/-! ## File naming (source lines 33-40) -/

/-- The character class `[a-zA-Z0-9.-]` of the sanitization regex. -/
def isAllowedChar (c : Char) : Bool :=
  c.isAlpha || c.isDigit || c == '.' || c == '-'

/-- Source lines 33-36: replace every character outside `[a-zA-Z0-9.-]` by
an underscore; if the result is the empty string (the only falsy string),
substitute `upload_` followed by the current millis. -/
def sanitizeFileName (now : Nat) (fileName : String) : String :=
  let sanitized := fileName.map (fun c => if isAllowedChar c then c else '_')
  if sanitized = "" then "upload_" ++ toString now else sanitized

/-- Source lines 38-40.  `now` stands for `Date.now()` and `randHex` for
`crypto.randomBytes(16).toString('hex')`, both supplied by the environment. -/
def generateUniqueFileName (now : Nat) (randHex : String) (fileName : String) : String :=
  toString now ++ "-" ++ randHex ++ "-" ++ sanitizeFileName now fileName

/-- Modelled from the spec: `generateFileUrl` lives in `./utils`, which is
not part of the provided sources.  Spec section 6: `publicUrl(namespace, name)
-> string`, a deterministic public URL derived from namespace and stored name. -/
def generateFileUrl (ns storedName : String) : String :=
  ns ++ "/" ++ storedName

/-! ## Per-file transfer (source lines 49-82) -/

/-- Outcome fixed by the environment for the `fetch` of one file:
a transport error (rejected promise) or a response with its `ok` flag. -/
inductive NetResult where
  | throws
  | response (ok : Bool)
deriving DecidableEq, Repr

/-- Outcome fixed by the environment for `storage.uploadToStorage`:
a thrown error or a returned success boolean. -/
inductive StoreResult where
  | throws
  | returns (success : Bool)
deriving DecidableEq, Repr

/-- Environment for one file's two external calls. -/
structure FileEnv where
  fetchResult : NetResult
  storeResult : StoreResult
deriving DecidableEq, Repr

/-- `fetch(file.url_private, ...)` — records the attempt, then returns
`response.ok` or throws. -/
def fetchCall (res : NetResult) (url : String) : Eff Bool :=
  match res with
  | NetResult.throws => ([Effect.fetch url], Except.error ⟨none⟩)
  | NetResult.response ok => ([Effect.fetch url], Except.ok ok)

/-- `uploadLimit(() => storage.uploadToStorage(...))` — records the attempt,
then returns the success boolean or throws. -/
def uploadCall (res : StoreResult) (dir storedName : String) : Eff Bool :=
  match res with
  | StoreResult.throws => ([Effect.upload dir storedName], Except.error ⟨none⟩)
  | StoreResult.returns s => ([Effect.upload dir storedName], Except.ok s)

/-- Per-file outcome: the success record pushed to `uploadedFiles`, or the
original name pushed to `failedFiles`. -/
inductive FileOutcome where
  | succeeded (f : UploadedFile)
  | failed (origName : String)
deriving DecidableEq, Repr

/-- One iteration of the loop in `processFiles` (source lines 49-82):
the `try` body with the oversize early-`continue`, the fetch, the unique
name computation, the limited upload, and the `catch` that records the
file as failed. -/
def processOneFile (fenv : FileEnv) (now : Nat) (randHex uid : String) (file : FileRef) :
    Eff FileOutcome :=
  tryCatchE
    (if file.size > MAX_FILE_SIZE then
      pureE (FileOutcome.failed file.name)
    else
      bindE (fetchCall fenv.fetchResult file.url_private) (fun ok =>
        if !ok then throwE ⟨none⟩
        else
          let uniqueFileName := generateUniqueFileName now randHex file.name
          let userDir := "s/" ++ uid
          bindE (uploadCall fenv.storeResult userDir uniqueFileName) (fun success =>
            if !success then throwE ⟨none⟩
            else pureE (FileOutcome.succeeded
              ⟨uniqueFileName, generateFileUrl userDir uniqueFileName, file.mimetype⟩))))
    (fun _ => pureE (FileOutcome.failed file.name))

/-- The `for (const file of fileMessage.files)` loop, accumulating
`uploadedFiles` and `failedFiles` in input order. -/
def processFilesLoop (env : FileRef → FileEnv) (now : Nat) (rand : FileRef → String)
    (uid : String) : List FileRef → Eff (List UploadedFile × List String)
  | [] => pureE ([], [])
  | f :: rest =>
      bindE (processOneFile (env f) now (rand f) uid f) (fun outcome =>
        bindE (processFilesLoop env now rand uid rest) (fun tail =>
          match outcome with
          | FileOutcome.succeeded u => pureE (u :: tail.1, tail.2)
          | FileOutcome.failed nm => pureE (tail.1, nm :: tail.2)))

/-- Source lines 43-86: `processFiles(fileMessage, client)`. -/
def processFiles (env : FileRef → FileEnv) (now : Nat) (rand : FileRef → String)
    (fileMessage : FileMessage) : Eff BatchResult :=
  bindE (processFilesLoop env now rand fileMessage.user fileMessage.files) (fun acc =>
    pureE ⟨acc.1, acc.2⟩)

/-! ## Slack reactions (source lines 89-116) -/

/-- `client.reactions.add({name, timestamp, channel})`; the environment
decides success (`none`) or a thrown error carrying `data.error = code`. -/
def reactionsAdd (res : Option String) (rname ts channel : String) : Eff Unit :=
  match res with
  | none => ([Effect.reactionAdd rname ts channel], Except.ok ())
  | some code => ([Effect.reactionAdd rname ts channel], Except.error ⟨some code⟩)

/-- `client.reactions.remove({name, timestamp, channel})`. -/
def reactionsRemove (res : Option String) (rname ts channel : String) : Eff Unit :=
  match res with
  | none => ([Effect.reactionRemove rname ts channel], Except.ok ())
  | some code => ([Effect.reactionRemove rname ts channel], Except.error ⟨some code⟩)

/-- Source lines 89-99: add the `beachball` reaction, logging and
swallowing any failure. -/
def addProcessingReaction (res : Option String) (channelId msgTs : String) : Eff Unit :=
  tryCatchE (reactionsAdd res "beachball" msgTs channelId) (fun _ => pureE ())

/-- Source lines 101-116: one `try` block holding the removal of
`beachball` followed by the addition of the terminal reaction; a single
`catch` logs and swallows whichever of the two failed. -/
def updateReactions (removeRes addRes : Option String) (channelId msgTs : String)
    (success : Bool) : Eff Unit :=
  tryCatchE
    (bindE (reactionsRemove removeRes "beachball" msgTs channelId) (fun _ =>
      reactionsAdd addRes (if success then "white_check_mark" else "x") msgTs channelId))
    (fun _ => pureE ())

/-! ## Message resolution (source lines 118-155) -/

/-- How the two lookup calls inside `findFileMessage` turn out, fixed by
the environment:
* `infoFails` — `files.info` throws, or returns `!ok`/no file;
* `noShare` — file info is fine but has no share entry for the channel;
* `historyFails` — `conversations.history` throws, or returns `!ok`/no
  messages;
* `found m` — the original message is resolved to `m`. -/
inductive FindResult where
  | infoFails
  | noShare
  | historyFails
  | found (m : FileMessage)
deriving DecidableEq, Repr

/-- The `try` body of `findFileMessage`: `files.info` is always called;
`conversations.history` only once a share entry supplied a message `ts`. -/
def findFileMessageBody (find : FindResult) (event : InboundEvent) : Eff FileMessage :=
  match find with
  | FindResult.infoFails => ([Effect.filesInfo event.file_id], Except.error ⟨none⟩)
  | FindResult.noShare => ([Effect.filesInfo event.file_id], Except.error ⟨none⟩)
  | FindResult.historyFails =>
      ([Effect.filesInfo event.file_id, Effect.convHistory event.channel_id],
        Except.error ⟨none⟩)
  | FindResult.found m =>
      ([Effect.filesInfo event.file_id, Effect.convHistory event.channel_id],
        Except.ok m)

/-- Source lines 118-155: any failure is caught, logged and turned into
`null`; never throws. -/
def findFileMessage (find : FindResult) (event : InboundEvent) : Eff (Option FileMessage) :=
  tryCatchE
    (bindE (findFileMessageBody find event) (fun m => pureE (some m)))
    (fun _ => pureE none)

/-! ## Result reporting (source lines 157-172) -/

/-- The summary text composed by `sendResultsMessage` (source lines 158-165). -/
def resultsText (fm : FileMessage) (ups : List UploadedFile) (fails : List String) : String :=
  let msg := "Hey <@" ++ fm.user ++ ">, "
  let msg :=
    if ups.length > 0 then
      msg ++ "here " ++ (if ups.length = 1 then "is your link" else "are your links") ++ ":\n"
        ++ String.intercalate "\n" (ups.map (fun f => "• " ++ f.name ++ ": " ++ f.url))
    else msg
  if fails.length > 0 then
    msg ++ "\n\nFailed to process: " ++ String.intercalate ", " fails
  else msg

/-- Source lines 157-172: `chat.postMessage` threaded under the original
message; the call is not wrapped in a `try`, so its failure propagates. -/
def sendResultsMessage (res : Option String) (channelId : String) (fm : FileMessage)
    (ups : List UploadedFile) (fails : List String) : Eff Unit :=
  match res with
  | none => ([Effect.postMessage channelId (resultsText fm ups fails)], Except.ok ())
  | some code =>
      ([Effect.postMessage channelId (resultsText fm ups fails)], Except.error ⟨some code⟩)

/-! ## Compensating cleanup (source lines 174-197) -/

/-- Source lines 174-197: when a message was resolved and the processing
reaction added, remove `beachball` (its own `catch` ignores a
`no_reaction` error and logs any other) and then add `x` (its own `catch`
logs).  Neither sub-failure escapes. -/
def handleError (removeRes addRes : Option String) (channelId : String)
    (fileMessage : Option FileMessage) (reactionAdded : Bool) : Eff Unit :=
  match fileMessage with
  | none => pureE ()
  | some fm =>
      if reactionAdded then
        bindE
          (tryCatchE (reactionsRemove removeRes "beachball" fm.ts channelId)
            (fun _ => pureE ()))
          (fun _ =>
            tryCatchE (reactionsAdd addRes "x" fm.ts channelId) (fun _ => pureE ()))
      else pureE ()

/-! ## Entry point (source lines 199-222) -/

/-- Environment fixing every external outcome for one invocation of
`handleFileUpload`. -/
structure OrchEnv where
  now : Nat
  find : FindResult
  fileEnv : FileRef → FileEnv
  randHex : FileRef → String
  procAddRes : Option String
  updRemoveRes : Option String
  updAddRes : Option String
  postRes : Option String
  cleanRemoveRes : Option String
  cleanAddRes : Option String

/-- Source lines 210-215: the tail of the `try` block once the message is
admitted — add the processing reaction, process the files, post the
summary, update the reactions. -/
def tryBody (env : OrchEnv) (event : InboundEvent) (m : FileMessage) : Eff Unit :=
  bindE (addProcessingReaction env.procAddRes event.channel_id m.ts) (fun _ =>
    bindE (processFiles env.fileEnv env.now env.randHex m) (fun result =>
      bindE (sendResultsMessage env.postRes event.channel_id m
              result.uploadedFiles result.failedFiles) (fun _ =>
        updateReactions env.updRemoveRes env.updAddRes event.channel_id m.ts
          (result.failedFiles.length == 0))))

/-- Source lines 199-222: `handleFileUpload(event, client)`.  Returns the
updated `processedMessages` set together with the effect trace and the
outcome (`ok` for a normal return, `error` when the caught exception is
re-thrown after `handleError`). -/
def handleFileUpload (env : OrchEnv) (processed : List String) (event : InboundEvent) :
    List String × Eff Unit :=
  if isMessageTooOld (env.now : ℚ) event.event_ts then (processed, pureE ())
  else
    match findFileMessage env.find event with
    | (findEff, Except.error e) => (processed, (findEff, Except.error e))
    | (findEff, Except.ok none) => (processed, (findEff, Except.ok ()))
    | (findEff, Except.ok (some m)) =>
        if isMessageProcessed processed m.ts then (processed, (findEff, Except.ok ()))
        else
          (markMessageAsProcessing processed m.ts,
            bindE ((findEff, Except.ok ())) (fun _ =>
              tryCatchE (tryBody env event m)
                (fun e =>
                  bindE (handleError env.cleanRemoveRes env.cleanAddRes event.channel_id
                          (some m) true)
                    (fun _ => throwE e))))

/-! ## Closed-form characterizations -/

/-- Closed form of the per-file outcome decided by `processOneFile`. -/
def outcomeOf (fenv : FileEnv) (now : Nat) (randHex uid : String) (file : FileRef) :
    FileOutcome :=
  if file.size > MAX_FILE_SIZE then FileOutcome.failed file.name
  else
    match fenv.fetchResult with
    | NetResult.throws => FileOutcome.failed file.name
    | NetResult.response ok =>
        if !ok then FileOutcome.failed file.name
        else
          match fenv.storeResult with
          | StoreResult.throws => FileOutcome.failed file.name
          | StoreResult.returns s =>
              if !s then FileOutcome.failed file.name
              else
                FileOutcome.succeeded
                  ⟨generateUniqueFileName now randHex file.name,
                    generateFileUrl ("s/" ++ uid) (generateUniqueFileName now randHex file.name),
                    file.mimetype⟩

/-- Closed form of the effect trace of `processOneFile`. -/
def fileEffectsOf (fenv : FileEnv) (now : Nat) (randHex uid : String) (file : FileRef) :
    List Effect :=
  if file.size > MAX_FILE_SIZE then []
  else
    match fenv.fetchResult with
    | NetResult.throws => [Effect.fetch file.url_private]
    | NetResult.response ok =>
        if !ok then [Effect.fetch file.url_private]
        else
          [Effect.fetch file.url_private,
            Effect.upload ("s/" ++ uid) (generateUniqueFileName now randHex file.name)]

def successOf : FileOutcome → Option UploadedFile
  | FileOutcome.succeeded u => some u
  | FileOutcome.failed _ => none

def failedNameOf : FileOutcome → Option String
  | FileOutcome.succeeded _ => none
  | FileOutcome.failed nm => some nm

theorem processOneFile_eq (fenv : FileEnv) (now : Nat) (randHex uid : String)
    (file : FileRef) :
    processOneFile fenv now randHex uid file =
      (fileEffectsOf fenv now randHex uid file,
        Except.ok (outcomeOf fenv now randHex uid file)) := by
  unfold processOneFile outcomeOf fileEffectsOf
  by_cases hsz : file.size > MAX_FILE_SIZE
  · simp [hsz, pureE, tryCatchE]
  · cases hfetch : fenv.fetchResult with
    | throws => simp [hsz, hfetch, fetchCall, bindE, tryCatchE, pureE]
    | response ok =>
        cases ok with
        | false => simp [hsz, hfetch, fetchCall, bindE, tryCatchE, pureE, throwE]
        | true =>
            cases hstore : fenv.storeResult with
            | throws => simp [hsz, hfetch, hstore, fetchCall, uploadCall, bindE, tryCatchE, pureE, throwE]
            | returns s =>
                cases s with
                | false => simp [hsz, hfetch, hstore, fetchCall, uploadCall, bindE, tryCatchE, pureE, throwE]
                | true => simp [hsz, hfetch, hstore, fetchCall, uploadCall, bindE, tryCatchE, pureE, throwE]

theorem processFilesLoop_eq (env : FileRef → FileEnv) (now : Nat) (rand : FileRef → String)
    (uid : String) (files : List FileRef) :
    processFilesLoop env now rand uid files =
      ((files.map (fun f => fileEffectsOf (env f) now (rand f) uid f)).flatten,
        Except.ok
          (files.filterMap (fun f => successOf (outcomeOf (env f) now (rand f) uid f)),
            files.filterMap (fun f => failedNameOf (outcomeOf (env f) now (rand f) uid f)))) := by
  induction files with
  | nil => simp [processFilesLoop, pureE]
  | cons f rest ih =>
      simp only [processFilesLoop, processOneFile_eq, ih, bindE, pureE, List.map_cons,
        List.flatten, List.filterMap_cons]
      cases houtc : outcomeOf (env f) now (rand f) uid f with
      | succeeded u => simp [houtc, successOf, failedNameOf]
      | failed nm => simp [houtc, successOf, failedNameOf]

theorem processFiles_eq (env : FileRef → FileEnv) (now : Nat) (rand : FileRef → String)
    (fm : FileMessage) :
    processFiles env now rand fm =
      ((fm.files.map (fun f => fileEffectsOf (env f) now (rand f) fm.user f)).flatten,
        Except.ok
          ⟨fm.files.filterMap (fun f => successOf (outcomeOf (env f) now (rand f) fm.user f)),
            fm.files.filterMap (fun f => failedNameOf (outcomeOf (env f) now (rand f) fm.user f))⟩) := by
  simp [processFiles, processFilesLoop_eq, bindE, pureE]

/-- Closed form of the message returned by `findFileMessage`. -/
def findMsgOf : FindResult → Option FileMessage
  | FindResult.found m => some m
  | _ => none

/-- Closed form of the effect trace of `findFileMessage`. -/
def findEffectsOf (find : FindResult) (event : InboundEvent) : List Effect :=
  match find with
  | FindResult.infoFails => [Effect.filesInfo event.file_id]
  | FindResult.noShare => [Effect.filesInfo event.file_id]
  | FindResult.historyFails =>
      [Effect.filesInfo event.file_id, Effect.convHistory event.channel_id]
  | FindResult.found _ =>
      [Effect.filesInfo event.file_id, Effect.convHistory event.channel_id]

theorem findFileMessage_eq (find : FindResult) (event : InboundEvent) :
    findFileMessage find event = (findEffectsOf find event, Except.ok (findMsgOf find)) := by
  cases find <;>
    simp [findFileMessage, findFileMessageBody, findMsgOf, findEffectsOf, bindE, tryCatchE, pureE]

/-! ## Effect classification -/

/-- A network transfer attempt: file download or storage upload. -/
def isTransferEffect : Effect → Bool
  | Effect.fetch _ => true
  | Effect.upload _ _ => true
  | _ => false

/-- A reporting attempt: posting the summary message. -/
def isReportEffect : Effect → Bool
  | Effect.postMessage _ _ => true
  | _ => false

/-- A reaction-add attempt (setting a marker). -/
def isReactionAddEffect : Effect → Bool
  | Effect.reactionAdd _ _ _ => true
  | _ => false

theorem mem_fileEffectsOf_transfer (fenv : FileEnv) (now : Nat) (randHex uid : String)
    (file : FileRef) (e : Effect) (he : e ∈ fileEffectsOf fenv now randHex uid file) :
    isTransferEffect e = true := by
  unfold fileEffectsOf at he
  by_cases hsz : file.size > MAX_FILE_SIZE
  · simp [hsz] at he
  · cases hfetch : fenv.fetchResult with
    | throws =>
        simp [hsz, hfetch] at he
        simp [he, isTransferEffect]
    | response ok =>
        cases ok with
        | false =>
            simp [hsz, hfetch] at he
            simp [he, isTransferEffect]
        | true =>
            simp [hsz, hfetch] at he
            rcases he with he | he <;> simp [he, isTransferEffect]

theorem mem_processFilesEffects_transfer (env : FileRef → FileEnv) (now : Nat)
    (rand : FileRef → String) (fm : FileMessage) (e : Effect)
    (he : e ∈ (processFiles env now rand fm).1) : isTransferEffect e = true := by
  rw [processFiles_eq] at he
  simp only [List.mem_flatten, List.mem_map] at he
  obtain ⟨l, ⟨f, _, rfl⟩, hel⟩ := he
  exact mem_fileEffectsOf_transfer _ _ _ _ _ _ hel

theorem mem_findEffectsOf_classify (find : FindResult) (event : InboundEvent) (e : Effect)
    (he : e ∈ findEffectsOf find event) :
    isTransferEffect e = false ∧ isReportEffect e = false ∧ isReactionAddEffect e = false := by
  have hx : e = Effect.filesInfo event.file_id ∨ e = Effect.convHistory event.channel_id := by
    cases find <;> simp [findEffectsOf] at he <;> tauto
  rcases hx with rfl | rfl <;> exact ⟨rfl, rfl, rfl⟩

theorem mem_findEffectsOf (find : FindResult) (event : InboundEvent) (e : Effect)
    (he : e ∈ findEffectsOf find event) :
    e = Effect.filesInfo event.file_id ∨ e = Effect.convHistory event.channel_id := by
  cases find <;> simp [findEffectsOf] at he <;> tauto

theorem count_transfer_zero (l : List Effect) (h : ∀ e ∈ l, isTransferEffect e = true)
    (a : Effect) (ha : isTransferEffect a = false) : l.count a = 0 := by
  rw [List.count_eq_zero]
  intro hm
  rw [h a hm] at ha
  cases ha

theorem findEffectsOf_count_reactionRemove (find : FindResult) (event : InboundEvent)
    (a b c : String) : (findEffectsOf find event).count (Effect.reactionRemove a b c) = 0 := by
  rw [List.count_eq_zero]
  intro hm
  rcases mem_findEffectsOf find event _ hm with h | h <;> simp at h

theorem findEffectsOf_count_reactionAdd (find : FindResult) (event : InboundEvent)
    (a b c : String) : (findEffectsOf find event).count (Effect.reactionAdd a b c) = 0 := by
  rw [List.count_eq_zero]
  intro hm
  rcases mem_findEffectsOf find event _ hm with h | h <;> simp at h

/-! ## Branch lemmas for `handleFileUpload` -/

theorem handleFileUpload_stale_eq (env : OrchEnv) (processed : List String)
    (event : InboundEvent) (h : isMessageTooOld (env.now : ℚ) event.event_ts = true) :
    handleFileUpload env processed event = (processed, ([], Except.ok ())) := by
  simp [handleFileUpload, h, pureE]

theorem handleFileUpload_notFound_eq (env : OrchEnv) (processed : List String)
    (event : InboundEvent) (h1 : isMessageTooOld (env.now : ℚ) event.event_ts = false)
    (h2 : findMsgOf env.find = none) :
    handleFileUpload env processed event =
      (processed, (findEffectsOf env.find event, Except.ok ())) := by
  unfold handleFileUpload
  rw [findFileMessage_eq, h2]
  simp [h1]

theorem handleFileUpload_alreadyProcessed_eq (env : OrchEnv) (processed : List String)
    (event : InboundEvent) (m : FileMessage)
    (h1 : isMessageTooOld (env.now : ℚ) event.event_ts = false)
    (h2 : env.find = FindResult.found m)
    (h3 : isMessageProcessed processed m.ts = true) :
    handleFileUpload env processed event =
      (processed, (findEffectsOf env.find event, Except.ok ())) := by
  unfold handleFileUpload
  rw [findFileMessage_eq, h2]
  simp [h1, h3, findMsgOf]

theorem handleFileUpload_admitted_eq (env : OrchEnv) (processed : List String)
    (event : InboundEvent) (m : FileMessage)
    (h1 : isMessageTooOld (env.now : ℚ) event.event_ts = false)
    (h2 : env.find = FindResult.found m)
    (h3 : isMessageProcessed processed m.ts = false) :
    handleFileUpload env processed event =
      (m.ts :: processed,
        bindE ((findEffectsOf env.find event, Except.ok ())) (fun _ =>
          tryCatchE (tryBody env event m)
            (fun e =>
              bindE (handleError env.cleanRemoveRes env.cleanAddRes event.channel_id
                      (some m) true)
                (fun _ => throwE e)))) := by
  unfold handleFileUpload
  rw [findFileMessage_eq, h2]
  simp [h1, h3, findMsgOf, markMessageAsProcessing]

/-! ## Closed forms of the signalling helpers -/

theorem addProcessingReaction_eq (res : Option String) (channelId msgTs : String) :
    addProcessingReaction res channelId msgTs =
      ([Effect.reactionAdd "beachball" msgTs channelId], Except.ok ()) := by
  cases res <;> simp [addProcessingReaction, reactionsAdd, tryCatchE, pureE]

theorem handleError_eq (removeRes addRes : Option String) (channelId : String)
    (m : FileMessage) :
    handleError removeRes addRes channelId (some m) true =
      ([Effect.reactionRemove "beachball" m.ts channelId,
        Effect.reactionAdd "x" m.ts channelId], Except.ok ()) := by
  cases removeRes <;> cases addRes <;>
    simp [handleError, reactionsRemove, reactionsAdd, tryCatchE, bindE, pureE]

/-- The `BatchResult` determined by the environment for one message. -/
def batchOf (env : OrchEnv) (m : FileMessage) : BatchResult :=
  ⟨m.files.filterMap (fun f =>
      successOf (outcomeOf (env.fileEnv f) env.now (env.randHex f) m.user f)),
    m.files.filterMap (fun f =>
      failedNameOf (outcomeOf (env.fileEnv f) env.now (env.randHex f) m.user f))⟩

theorem processFiles_env_eq (env : OrchEnv) (m : FileMessage) :
    processFiles env.fileEnv env.now env.randHex m =
      ((m.files.map (fun f =>
          fileEffectsOf (env.fileEnv f) env.now (env.randHex f) m.user f)).flatten,
        Except.ok (batchOf env m)) := by
  rw [processFiles_eq]
  rfl

theorem tryBody_fault_eq (env : OrchEnv) (event : InboundEvent) (m : FileMessage)
    (code : String) (hpost : env.postRes = some code) :
    tryBody env event m =
      (Effect.reactionAdd "beachball" m.ts event.channel_id ::
        ((m.files.map (fun f =>
            fileEffectsOf (env.fileEnv f) env.now (env.randHex f) m.user f)).flatten ++
          [Effect.postMessage event.channel_id
            (resultsText m (batchOf env m).uploadedFiles (batchOf env m).failedFiles)]),
        Except.error ⟨some code⟩) := by
  unfold tryBody
  rw [addProcessingReaction_eq, processFiles_env_eq, hpost]
  simp [sendResultsMessage, bindE]

/-! ## Claim theorems -/

theorem filterMap_outcome_length (g : FileRef → FileOutcome) (files : List FileRef) :
    (files.filterMap (fun f => successOf (g f))).length +
      (files.filterMap (fun f => failedNameOf (g f))).length = files.length := by
  induction files with
  | nil => rfl
  | cons f rest ih =>
      rw [List.filterMap_cons, List.filterMap_cons]
      cases hg : g f with
      | succeeded u =>
          simp only [show successOf (FileOutcome.succeeded u) = some u from rfl,
            show failedNameOf (FileOutcome.succeeded u) = none from rfl, List.length_cons]
          omega
      | failed nm =>
          simp only [show successOf (FileOutcome.failed nm) = none from rfl,
            show failedNameOf (FileOutcome.failed nm) = some nm from rfl, List.length_cons]
          omega

/-- C1: for every file list of length `n`, `processFiles` returns a
`BatchResult` whose success count plus failure count equals `n`: every
input file yields exactly one outcome. -/
theorem processFiles_success_failure_count (env : FileRef → FileEnv) (now : Nat)
    (rand : FileRef → String) (fm : FileMessage) :
    ∃ br : BatchResult, (processFiles env now rand fm).2 = Except.ok br ∧
      br.uploadedFiles.length + br.failedFiles.length = fm.files.length := by
  refine ⟨⟨fm.files.filterMap (fun f => successOf (outcomeOf (env f) now (rand f) fm.user f)),
    fm.files.filterMap (fun f => failedNameOf (outcomeOf (env f) now (rand f) fm.user f))⟩,
    ?_, ?_⟩
  · rw [processFiles_eq]
  · exact filterMap_outcome_length (fun f => outcomeOf (env f) now (rand f) fm.user f) fm.files

/-- C2: `processFiles` partitions the outcomes into a successes sequence and
a failures sequence, each selected from the input files in input order
(`filterMap` over the input list); in particular, for files `[A, B, C]` where
`B` fails (its download response is not ok) and `A`, `C` succeed, the
failures list is exactly `["B"]` and the successes are `A`'s then `C`'s
records in that order. -/
theorem processFiles_partition_preserves_order :
    (∀ (env : FileRef → FileEnv) (now : Nat) (rand : FileRef → String) (fm : FileMessage),
      ∃ br : BatchResult, (processFiles env now rand fm).2 = Except.ok br ∧
        br.uploadedFiles =
          fm.files.filterMap (fun f => successOf (outcomeOf (env f) now (rand f) fm.user f)) ∧
        br.failedFiles =
          fm.files.filterMap (fun f => failedNameOf (outcomeOf (env f) now (rand f) fm.user f))) ∧
    (processFiles
        (fun f => if f.name = "B" then ⟨NetResult.response false, StoreResult.returns true⟩
          else ⟨NetResult.response true, StoreResult.returns true⟩)
        5 (fun _ => "ff")
        ⟨"111.22", "U1", [⟨"A", "uA", 1, "tA"⟩, ⟨"B", "uB", 1, "tB"⟩, ⟨"C", "uC", 1, "tC"⟩]⟩).2
      = Except.ok
          ⟨[⟨generateUniqueFileName 5 "ff" "A",
              generateFileUrl "s/U1" (generateUniqueFileName 5 "ff" "A"), "tA"⟩,
            ⟨generateUniqueFileName 5 "ff" "C",
              generateFileUrl "s/U1" (generateUniqueFileName 5 "ff" "C"), "tC"⟩], ["B"]⟩ := by
  constructor
  · intro env now rand fm
    exact ⟨_, by rw [processFiles_eq], rfl, rfl⟩
  · rfl

/-- C3: a file whose declared size exceeds `MAX_FILE_SIZE` is recorded in
the failures list, and its transfer step attempts no external call at all
(empty effect trace: no download, no upload). -/
theorem oversize_file_fails_without_network (env : FileRef → FileEnv) (now : Nat)
    (rand : FileRef → String) (fm : FileMessage) (f : FileRef)
    (hmem : f ∈ fm.files) (hsize : f.size > MAX_FILE_SIZE) :
    processOneFile (env f) now (rand f) fm.user f =
      ([], Except.ok (FileOutcome.failed f.name)) ∧
    ∃ br : BatchResult, (processFiles env now rand fm).2 = Except.ok br ∧
      f.name ∈ br.failedFiles := by
  constructor
  · rw [processOneFile_eq]
    unfold fileEffectsOf outcomeOf
    simp [hsize]
  · refine ⟨_, by rw [processFiles_eq], ?_⟩
    refine List.mem_filterMap.mpr ⟨f, hmem, ?_⟩
    unfold outcomeOf
    simp [hsize, failedNameOf]

/-- Witness for C3 at a concrete oversized file. -/
theorem oversize_file_fails_without_network_witness :
    ((⟨"big.bin", "uB", 2 * 1024 * 1024 * 1024 + 1, "t"⟩ : FileRef) ∈
        (⟨"111.22", "U1", [⟨"big.bin", "uB", 2 * 1024 * 1024 * 1024 + 1, "t"⟩]⟩ :
          FileMessage).files ∧
      (⟨"big.bin", "uB", 2 * 1024 * 1024 * 1024 + 1, "t"⟩ : FileRef).size > MAX_FILE_SIZE) ∧
    (processOneFile ((fun _ => ⟨NetResult.response true, StoreResult.returns true⟩)
          (⟨"big.bin", "uB", 2 * 1024 * 1024 * 1024 + 1, "t"⟩ : FileRef)) 5
        ((fun _ => "ff") (⟨"big.bin", "uB", 2 * 1024 * 1024 * 1024 + 1, "t"⟩ : FileRef))
        (⟨"111.22", "U1", [⟨"big.bin", "uB", 2 * 1024 * 1024 * 1024 + 1, "t"⟩]⟩ :
          FileMessage).user
        ⟨"big.bin", "uB", 2 * 1024 * 1024 * 1024 + 1, "t"⟩ =
        ([], Except.ok (FileOutcome.failed "big.bin")) ∧
      ∃ br : BatchResult,
        (processFiles (fun _ => ⟨NetResult.response true, StoreResult.returns true⟩) 5
            (fun _ => "ff")
            ⟨"111.22", "U1", [⟨"big.bin", "uB", 2 * 1024 * 1024 * 1024 + 1, "t"⟩]⟩).2 =
          Except.ok br ∧ "big.bin" ∈ br.failedFiles) :=
  ⟨⟨by decide, by decide⟩,
    oversize_file_fails_without_network
      (fun _ => ⟨NetResult.response true, StoreResult.returns true⟩) 5 (fun _ => "ff")
      ⟨"111.22", "U1", [⟨"big.bin", "uB", 2 * 1024 * 1024 * 1024 + 1, "t"⟩]⟩
      ⟨"big.bin", "uB", 2 * 1024 * 1024 * 1024 + 1, "t"⟩ (by decide) (by decide)⟩

/-- C8 counterexample: in `updateReactions`, when the removal of the
in-progress marker fails (here with `rate_limited`), the terminal-marker
add is never attempted — the two sub-steps share a single `try`/`catch`,
contradicting the claim that each sub-step fails independently. -/
theorem updateReactions_remove_failure_blocks_add :
    updateReactions (some "rate_limited") none "C01" "123.45" false =
      ([Effect.reactionRemove "beachball" "123.45" "C01"], Except.ok ()) ∧
    (updateReactions (some "rate_limited") none "C01" "123.45" false).1.countP
        isReactionAddEffect = 0 := by
  constructor <;> rfl

/-- C8 amended: in the Processing-to-terminal transition the two sub-steps
share one error scope: if the remove sub-step fails, the add sub-step is
not attempted; if the remove succeeds, the add is attempted; in every case
the combined failure is swallowed and `updateReactions` returns normally. -/
theorem updateReactions_single_error_scope (removeRes addRes : Option String)
    (channelId msgTs : String) (success : Bool) :
    (updateReactions removeRes addRes channelId msgTs success).2 = Except.ok () ∧
    (updateReactions removeRes addRes channelId msgTs success).1 =
      (match removeRes with
        | some _ => [Effect.reactionRemove "beachball" msgTs channelId]
        | none => [Effect.reactionRemove "beachball" msgTs channelId,
            Effect.reactionAdd (if success then "white_check_mark" else "x") msgTs channelId]) := by
  cases removeRes <;> cases addRes <;>
    simp [updateReactions, reactionsRemove, reactionsAdd, tryCatchE, bindE, pureE]

/-! ## C9: stored-name format -/

theorem isAllowedChar_iff (c : Char) : isAllowedChar c = true ↔
    (('A' ≤ c ∧ c ≤ 'Z') ∨ ('a' ≤ c ∧ c ≤ 'z') ∨ ('0' ≤ c ∧ c ≤ '9') ∨
      c = '.' ∨ c = '-') := by
  unfold isAllowedChar
  simp [Char.isAlpha, Char.isUpper, Char.isLower, Char.isDigit, Char.le_def]
  tauto

/-- Sanitization exactly as the spec words it: keep a character that is an
ASCII letter, a digit, a dot or a hyphen; replace anything else by an
underscore. -/
def specSanitizeChar (c : Char) : Char :=
  if ('A' ≤ c ∧ c ≤ 'Z') ∨ ('a' ≤ c ∧ c ≤ 'z') ∨ ('0' ≤ c ∧ c ≤ '9') ∨ c = '.' ∨ c = '-' then c
  else '_'

/-- The stored-name format exactly as the spec words it:
`{currentTimeMillis}-{16 random bytes as hex}-{sanitized(original_name)}`,
where an empty sanitization result is replaced by `upload_{currentTimeMillis}`. -/
def specStoredName (millis : Nat) (hexBytes original : String) : String :=
  let s := original.map specSanitizeChar
  toString millis ++ "-" ++ hexBytes ++ "-" ++
    (if s = "" then "upload_" ++ toString millis else s)

theorem sanitizeChar_funext :
    (fun c => if isAllowedChar c then c else '_') = specSanitizeChar := by
  funext c
  by_cases h : ('A' ≤ c ∧ c ≤ 'Z') ∨ ('a' ≤ c ∧ c ≤ 'z') ∨ ('0' ≤ c ∧ c ≤ '9') ∨
      c = '.' ∨ c = '-'
  · rw [specSanitizeChar, if_pos h, if_pos ((isAllowedChar_iff c).mpr h)]
  · rw [specSanitizeChar, if_neg h,
      if_neg (by simpa using (fun hh => h ((isAllowedChar_iff c).mp hh)))]

/-- C9: the computed stored name is exactly
`{currentTimeMillis}-{16 random bytes as hex}-{sanitized(original_name)}`
with sanitization replacing every character outside `[A-Za-z0-9.-]` by an
underscore and an empty result replaced by `upload_{currentTimeMillis}`. -/
theorem storedName_matches_spec_format (now : Nat) (randHex fileName : String) :
    generateUniqueFileName now randHex fileName = specStoredName now randHex fileName := by
  unfold generateUniqueFileName sanitizeFileName specStoredName
  rw [sanitizeChar_funext]

/-! ## Orchestration claims -/

theorem bindE_ok {α β : Type} (l : List Effect) (a : α) (g : α → Eff β) :
    bindE ((l, Except.ok a)) g = (l ++ (g a).1, (g a).2) := by
  rcases hga : g a with ⟨eff2, r⟩
  simp [bindE, hga]

theorem tryCatchE_error {α : Type} (l : List Effect) (e : JsError) (h : JsError → Eff α) :
    tryCatchE ((l, Except.error e)) h = (l ++ (h e).1, (h e).2) := by
  rcases hh : h e with ⟨eff2, r⟩
  simp [tryCatchE, hh]

/-- C4: an admitted `message_timestamp` is inserted into the ProcessedSet
immediately (even if the invocation later faults), and a second invocation
resolving to the same timestamp leaves the set unchanged and performs no
transfer and no reporting effects. -/
theorem processedSet_admits_at_most_once
    (env1 env2 : OrchEnv) (event1 event2 : InboundEvent) (processed : List String)
    (m : FileMessage)
    (h1 : isMessageTooOld (env1.now : ℚ) event1.event_ts = false)
    (h2 : env1.find = FindResult.found m)
    (h3 : isMessageProcessed processed m.ts = false)
    (h4 : env2.find = FindResult.found m) :
    m.ts ∈ (handleFileUpload env1 processed event1).1 ∧
    (handleFileUpload env2 (handleFileUpload env1 processed event1).1 event2).1 =
      (handleFileUpload env1 processed event1).1 ∧
    ∀ e ∈ (handleFileUpload env2 (handleFileUpload env1 processed event1).1 event2).2.1,
      isTransferEffect e = false ∧ isReportEffect e = false := by
  have hp1 : (handleFileUpload env1 processed event1).1 = m.ts :: processed := by
    rw [handleFileUpload_admitted_eq env1 processed event1 m h1 h2 h3]
  refine ⟨by rw [hp1]; exact List.mem_cons_self _ _, ?_⟩
  cases hstale : isMessageTooOld (env2.now : ℚ) event2.event_ts with
  | true =>
      rw [handleFileUpload_stale_eq env2 _ event2 hstale]
      exact ⟨rfl, by intro e he; simp at he⟩
  | false =>
      have hproc : isMessageProcessed (handleFileUpload env1 processed event1).1 m.ts = true := by
        rw [hp1]
        simp [isMessageProcessed]
      rw [handleFileUpload_alreadyProcessed_eq env2 _ event2 m hstale h4 hproc]
      refine ⟨rfl, ?_⟩
      intro e he
      have hc := mem_findEffectsOf_classify env2.find event2 e he
      exact ⟨hc.1, hc.2.1⟩

/-- Concrete environment for the C4 witness (normal processing, message
`"111.22"` with no files). -/
def envW4 : OrchEnv :=
  ⟨5, FindResult.found ⟨"111.22", "U1", []⟩,
    fun _ => ⟨NetResult.response true, StoreResult.returns true⟩, fun _ => "ff",
    none, none, none, none, none, none⟩

def eventW4 : InboundEvent := ⟨"F1", "CH", some 1⟩

/-- Witness for C4 at a concrete environment and event. -/
theorem processedSet_admits_at_most_once_witness :
    (isMessageTooOld ((envW4.now : Nat) : ℚ) eventW4.event_ts = false ∧
      envW4.find = FindResult.found ⟨"111.22", "U1", []⟩ ∧
      isMessageProcessed [] "111.22" = false) ∧
    ("111.22" ∈ (handleFileUpload envW4 [] eventW4).1 ∧
      (handleFileUpload envW4 (handleFileUpload envW4 [] eventW4).1 eventW4).1 =
        (handleFileUpload envW4 [] eventW4).1 ∧
      ∀ e ∈ (handleFileUpload envW4 (handleFileUpload envW4 [] eventW4).1 eventW4).2.1,
        isTransferEffect e = false ∧ isReportEffect e = false) :=
  ⟨⟨by simp [isMessageTooOld, jsGt, jsSub, jsMul, envW4, eventW4]; norm_num, rfl, rfl⟩,
    processedSet_admits_at_most_once envW4 envW4 eventW4 eventW4 [] ⟨"111.22", "U1", []⟩
      (by simp [isMessageTooOld, jsGt, jsSub, jsMul, envW4, eventW4]; norm_num) rfl rfl rfl⟩

/-- C5: if the exception from a failed summary post escapes after the
in-progress marker was set, the compensating path attempts the removal of
the `beachball` marker and the addition of the `x` marker exactly once
each — for every removal outcome, including a `no_reaction` ("marker
already absent") error — and the original exception is re-raised to the
caller. -/
theorem orchestration_fault_compensation
    (env : OrchEnv) (event : InboundEvent) (processed : List String) (m : FileMessage)
    (code : String)
    (h1 : isMessageTooOld (env.now : ℚ) event.event_ts = false)
    (h2 : env.find = FindResult.found m)
    (h3 : isMessageProcessed processed m.ts = false)
    (hpost : env.postRes = some code) :
    (handleFileUpload env processed event).2.2 = Except.error ⟨some code⟩ ∧
    (handleFileUpload env processed event).2.1.count
        (Effect.reactionRemove "beachball" m.ts event.channel_id) = 1 ∧
    (handleFileUpload env processed event).2.1.count
        (Effect.reactionAdd "x" m.ts event.channel_id) = 1 := by
  have hT : ∀ e ∈ (m.files.map (fun f =>
      fileEffectsOf (env.fileEnv f) env.now (env.randHex f) m.user f)).flatten,
      isTransferEffect e = true := by
    intro e he
    apply mem_processFilesEffects_transfer env.fileEnv env.now env.randHex m
    rw [processFiles_env_eq]
    exact he
  have hz1 := count_transfer_zero _ hT
    (Effect.reactionRemove "beachball" m.ts event.channel_id) rfl
  have hz2 := count_transfer_zero _ hT
    (Effect.reactionAdd "x" m.ts event.channel_id) rfl
  rw [handleFileUpload_admitted_eq env processed event m h1 h2 h3]
  simp only [bindE_ok, tryBody_fault_eq env event m code hpost, tryCatchE_error,
    handleError_eq, bindE_ok, throwE]
  refine ⟨trivial, ?_, ?_⟩ <;>
    simp [List.count_append, List.count_cons, List.count_nil, hz1, hz2,
      findEffectsOf_count_reactionRemove, findEffectsOf_count_reactionAdd,
      show ("x" : String) ≠ "beachball" from by decide]

/-- Concrete environment for the C5 witness: the summary post throws
`"boom"`; the cleanup removal races with a `no_reaction` error. -/
def envW5 : OrchEnv :=
  ⟨5, FindResult.found ⟨"111.22", "U1", []⟩,
    fun _ => ⟨NetResult.response true, StoreResult.returns true⟩, fun _ => "ff",
    none, none, none, some "boom", some "no_reaction", none⟩

def eventW5 : InboundEvent := ⟨"F1", "CH", some 1⟩

/-- Witness for C5 at a concrete faulting environment. -/
theorem orchestration_fault_compensation_witness :
    (isMessageTooOld ((envW5.now : Nat) : ℚ) eventW5.event_ts = false ∧
      envW5.find = FindResult.found ⟨"111.22", "U1", []⟩ ∧
      isMessageProcessed [] "111.22" = false ∧
      envW5.postRes = some "boom") ∧
    ((handleFileUpload envW5 [] eventW5).2.2 = Except.error ⟨some "boom"⟩ ∧
      (handleFileUpload envW5 [] eventW5).2.1.count
          (Effect.reactionRemove "beachball" "111.22" "CH") = 1 ∧
      (handleFileUpload envW5 [] eventW5).2.1.count
          (Effect.reactionAdd "x" "111.22" "CH") = 1) :=
  ⟨⟨by simp [isMessageTooOld, jsGt, jsSub, jsMul, envW5, eventW5]; norm_num, rfl, rfl, rfl⟩,
    orchestration_fault_compensation envW5 eventW5 [] ⟨"111.22", "U1", []⟩ "boom"
      (by simp [isMessageTooOld, jsGt, jsSub, jsMul, envW5, eventW5]; norm_num) rfl rfl rfl⟩

/-- C6: an event whose origin timestamp is more than 24 hours older than
the current time is dropped before anything happens: the ProcessedSet is
unchanged, the effect trace is empty (no marker, no lookup, no transfer,
no report), and the handler returns normally. -/
theorem stale_event_dropped_before_any_work (env : OrchEnv) (processed : List String)
    (event : InboundEvent) (h : isMessageTooOld (env.now : ℚ) event.event_ts = true) :
    handleFileUpload env processed event = (processed, ([], Except.ok ())) :=
  handleFileUpload_stale_eq env processed event h

def envW6 : OrchEnv :=
  ⟨200000000000, FindResult.found ⟨"111.22", "U1", []⟩,
    fun _ => ⟨NetResult.response true, StoreResult.returns true⟩, fun _ => "ff",
    none, none, none, none, none, none⟩

def eventW6 : InboundEvent := ⟨"F1", "CH", some 1⟩

/-- Witness for C6 at a concrete stale event. -/
theorem stale_event_dropped_before_any_work_witness :
    isMessageTooOld ((envW6.now : Nat) : ℚ) eventW6.event_ts = true ∧
    handleFileUpload envW6 ["x1"] eventW6 = (["x1"], ([], Except.ok ())) :=
  ⟨by simp [isMessageTooOld, jsGt, jsSub, jsMul, envW6, eventW6]; norm_num,
    stale_event_dropped_before_any_work envW6 ["x1"] eventW6
      (by simp [isMessageTooOld, jsGt, jsSub, jsMul, envW6, eventW6]; norm_num)⟩

/-- C7: when resolution of the `FileMessage` fails (the lookup returns
`null`), `handleFileUpload` returns normally with the ProcessedSet
unchanged and only the lookup effects in the trace: zero reaction-adds,
zero transfers, zero reports. -/
theorem resolution_failure_aborts_without_markers (env : OrchEnv)
    (processed : List String) (event : InboundEvent)
    (h1 : isMessageTooOld (env.now : ℚ) event.event_ts = false)
    (h2 : findMsgOf env.find = none) :
    handleFileUpload env processed event =
      (processed, (findEffectsOf env.find event, Except.ok ())) ∧
    ∀ e ∈ (handleFileUpload env processed event).2.1,
      isReactionAddEffect e = false ∧ isTransferEffect e = false ∧
        isReportEffect e = false := by
  have heq := handleFileUpload_notFound_eq env processed event h1 h2
  refine ⟨heq, ?_⟩
  rw [heq]
  intro e he
  have hc := mem_findEffectsOf_classify env.find event e he
  exact ⟨hc.2.2, hc.1, hc.2.1⟩

def envW7 : OrchEnv :=
  ⟨5, FindResult.infoFails,
    fun _ => ⟨NetResult.response true, StoreResult.returns true⟩, fun _ => "ff",
    none, none, none, none, none, none⟩

def eventW7 : InboundEvent := ⟨"F1", "CH", some 1⟩

/-- Witness for C7 at a concrete failed lookup. -/
theorem resolution_failure_aborts_without_markers_witness :
    (isMessageTooOld ((envW7.now : Nat) : ℚ) eventW7.event_ts = false ∧
      findMsgOf envW7.find = none) ∧
    (handleFileUpload envW7 [] eventW7 =
        ([], (findEffectsOf envW7.find eventW7, Except.ok ())) ∧
      ∀ e ∈ (handleFileUpload envW7 [] eventW7).2.1,
        isReactionAddEffect e = false ∧ isTransferEffect e = false ∧
          isReportEffect e = false) :=
  ⟨⟨by simp [isMessageTooOld, jsGt, jsSub, jsMul, envW7, eventW7]; norm_num, rfl⟩,
    resolution_failure_aborts_without_markers envW7 [] eventW7
      (by simp [isMessageTooOld, jsGt, jsSub, jsMul, envW7, eventW7]; norm_num) rfl⟩

/-- C10: when `parseFloat` of the event timestamp yields `NaN`, the
staleness check is `false` (the `NaN` comparison fails), so the event is
never dropped as stale and proceeds to resolution: the `files.info` lookup
is attempted. -/
theorem nan_timestamp_never_dropped (env : OrchEnv) (processed : List String)
    (event : InboundEvent) (h : event.event_ts = none) :
    isMessageTooOld (env.now : ℚ) event.event_ts = false ∧
    Effect.filesInfo event.file_id ∈ (handleFileUpload env processed event).2.1 := by
  have hstale : isMessageTooOld (env.now : ℚ) event.event_ts = false := by rw [h]; rfl
  refine ⟨hstale, ?_⟩
  cases hf : env.find with
  | found m =>
      cases hproc : isMessageProcessed processed m.ts with
      | true =>
          rw [handleFileUpload_alreadyProcessed_eq env processed event m hstale hf hproc]
          simp [hf, findEffectsOf]
      | false =>
          rw [handleFileUpload_admitted_eq env processed event m hstale hf hproc]
          rw [bindE_ok]
          simp only [hf, findEffectsOf]
          simp
  | infoFails =>
      rw [handleFileUpload_notFound_eq env processed event hstale (by rw [hf]; rfl)]
      simp [hf, findEffectsOf]
  | noShare =>
      rw [handleFileUpload_notFound_eq env processed event hstale (by rw [hf]; rfl)]
      simp [hf, findEffectsOf]
  | historyFails =>
      rw [handleFileUpload_notFound_eq env processed event hstale (by rw [hf]; rfl)]
      simp [hf, findEffectsOf]

def envW10 : OrchEnv :=
  ⟨200000000000, FindResult.infoFails,
    fun _ => ⟨NetResult.response true, StoreResult.returns true⟩, fun _ => "ff",
    none, none, none, none, none, none⟩

def eventW10 : InboundEvent := ⟨"F1", "CH", none⟩

/-- Witness for C10: a very old `now` cannot drop a `NaN`-timestamped event. -/
theorem nan_timestamp_never_dropped_witness :
    eventW10.event_ts = none ∧
    (isMessageTooOld ((envW10.now : Nat) : ℚ) eventW10.event_ts = false ∧
      Effect.filesInfo "F1" ∈ (handleFileUpload envW10 [] eventW10).2.1) :=
  ⟨rfl, nan_timestamp_never_dropped envW10 [] eventW10 rfl⟩

end Cdn
